import Mathlib

/-!
# Verification of the FinalProjectBackend route handlers

A shallow embedding of the Express/Mongoose route handlers of the
marketplace backend (controllers `auth.controller.ts`,
`user.controller.ts`, `post.controller.ts`, `comment.controller.ts` and
the user model `user.model.ts`).

Modelling conventions:
* The document database is an explicit state (`Db`) of lists of records;
  `Model.findById` / `findOne` become `List.find?`, `doc.save()` and
  `findByIdAndUpdate` become a map that replaces the record with the
  matching id.
* Request-body values for the generic field-update endpoints are
  modelled as strings (they arrive as JSON/form text); JS falsiness of a
  missing string field is modelled by the empty string.
* `bcrypt` is external; it is modelled by an injective tagging function,
  which captures exactly what the handlers rely on: `compare(p, h)`
  succeeds iff `h` was produced by hashing `p`.
* JWTs are external; a token is modelled as its verified content (the
  signing secret, the `id` claim, the `exp` claim) or an unparseable
  blob, which captures the `jsonwebtoken` verify/sign contract used by
  the handlers.
* The uploads directory is modelled as the list of file names present;
  file contents (base64 bodies in responses) are outside the model.
-/

namespace Backend

/-! ## JS string primitives used by the handlers -/

/-- Model of JS `String.prototype.trim`: drop whitespace from both ends. -/
def trimList (l : List Char) : List Char :=
  ((l.dropWhile Char.isWhitespace).reverse.dropWhile Char.isWhitespace).reverse

/-- JS `value.trim()` on the string's character data. -/
def jsTrim (s : String) : String := ⟨trimList s.data⟩

/-- The regex test `/^\d{10}$/.test(value)` of the phone validation:
exactly ten decimal digits. -/
def phoneTest (s : String) : Bool :=
  s.data.length == 10 && s.data.all Char.isDigit

/-- The digits of a numeral as a natural number. -/
def natOfDigits (l : List Char) : Nat :=
  l.foldl (fun a c => 10 * a + (c.toNat - 48)) 0

/-- Longest prefix of decimal digits, with the rest. -/
def digitsPrefix (l : List Char) : List Char × List Char :=
  match l with
  | [] => ([], [])
  | c :: cs =>
    if c.isDigit then
      let (d, r) := digitsPrefix cs
      (c :: d, r)
    else ([], c :: cs)

/-- JS `Number(s)` as Mongoose's number cast uses it, restricted to the
unsigned decimal numerals the application's price strings take: the empty
string casts to 0; otherwise the whole string must read `digits
[ "." digits ]` with at least one digit; anything else is NaN (`none`),
which Mongoose turns into a CastError. -/
def numberQ (s : String) : Option ℚ :=
  if s.data = [] then some 0
  else
    let d1 := (digitsPrefix s.data).1
    match (digitsPrefix s.data).2 with
    | [] => if d1 = [] then none else some (natOfDigits d1 : ℚ)
    | '.' :: rest =>
      let d2 := (digitsPrefix rest).1
      if (digitsPrefix rest).2 = [] ∧ ¬(d1 = [] ∧ d2 = [])
      then some ((natOfDigits d1 : ℚ) + (natOfDigits d2 : ℚ) / 10 ^ d2.length)
      else none
    | _ => none

/-! ## Data model (`user.model.ts`, `post.model.ts`, `comment.model.ts`) -/

/-- A persisted user document (schema of `user.model.ts`): username and
email are uniquely indexed, `googleId` carries a sparse unique index,
`likes` is the array of liked post ids (the likes relation is tracked on
the User side in `post.controller.ts`). -/
structure StoredUser where
  uid : String
  username : String
  email : String
  password : String
  googleId : Option String
  phone : Option String
  profileImage : Option String
  role : String
  likes : List String
deriving Repr, DecidableEq

/-- Modelled from the spec: a persisted post document.  The current
snapshot's `post.model.ts` is not under `src/` (only the older text-post
variant is); the fields follow §3's data model and the paths the current
`post.controller.ts` reads and writes (author reference, title, optional
description, category, numeric price, optional image, liker references,
comment references). -/
structure StoredPost where
  pid : String
  author : String
  title : String
  description : String
  category : String
  price : ℚ
  image : Option String
  likes : List String
  comments : List String
deriving Repr, DecidableEq

/-- A persisted comment document. -/
structure StoredComment where
  cid : String
  post : String
  author : String
  text : String
deriving Repr, DecidableEq

/-- The document database plus the uploads directory (as file names). -/
structure Db where
  users : List StoredUser
  posts : List StoredPost
  comments : List StoredComment
  files : List String
deriving Repr, DecidableEq

/-- `User.findById(id)` / `User.findOne({_id: id})`. -/
def findUser (db : Db) (id : String) : Option StoredUser :=
  db.users.find? (fun u => u.uid == id)

/-- `Post.findById(id)`. -/
def findPost (db : Db) (id : String) : Option StoredPost :=
  db.posts.find? (fun p => p.pid == id)

/-- `Comment.findById(id)`. -/
def findComment (db : Db) (id : String) : Option StoredComment :=
  db.comments.find? (fun c => c.cid == id)

/-- `user.save()` / `User.findByIdAndUpdate`: replace the document whose
`_id` matches the saved document. -/
def saveUser (db : Db) (u : StoredUser) : Db :=
  { db with users := db.users.map (fun x => if x.uid == u.uid then u else x) }

/-- `post.save()` / post-side `findByIdAndUpdate`. -/
def savePost (db : Db) (p : StoredPost) : Db :=
  { db with posts := db.posts.map (fun x => if x.pid == p.pid then p else x) }

/-- Best-effort `fs.unlinkSync` guarded by `fs.existsSync`: remove the
file name if present, silently do nothing otherwise. -/
def deleteFile (db : Db) (name : String) : Db :=
  { db with files := db.files.filter (fun f => f != name) }

/-! ## Generic field update (`user.controller.ts` `updateUserField`,
`post.controller.ts` `updatePostField`) -/

/-- An error raised by the database layer: a Mongoose cast failure, or a
MongoDB E11000 unique-index violation.  Both reach the controllers as a
rejected promise, which `next(error)` sends to the global error handler
(`errorHandler` in `user.model.ts:37-48`, responding 500). -/
inductive DbErr where
  | castError
  | duplicateKey
deriving Repr, DecidableEq

/-- A string castable to an ObjectId: exactly 24 hexadecimal digits. -/
def isObjectIdHex (s : String) : Bool :=
  s.data.length == 24 && s.data.all (fun c =>
    c.isDigit || ('a' ≤ c && c ≤ 'f') || ('A' ≤ c && c ≤ 'F'))

/-- `User.findByIdAndUpdate(id, { [field]: value }, { new: true,
runValidators: true })` applied to the found document `u`, for a string
`value`, following the schema of `user.model.ts`: the string paths
username/email/password/googleId/phone/profileImage/role are set (update
validators do not fire the `required` check on a plain string value);
setting the uniquely indexed username, email or sparse-unique googleId to
a value another document holds raises E11000; `likes` is an ObjectId
array, so the value must cast (a scalar is wrapped into a one-element
array) or a CastError is raised; unknown paths are discarded by strict
mode and the update succeeds without change. -/
def mongooseUpdateUser (db : Db) (id : String) (u : StoredUser)
    (field value : String) : Except DbErr StoredUser :=
  if field == "username" then
    if db.users.any (fun v => v.uid != id && v.username == value)
    then .error .duplicateKey
    else .ok { u with username := value }
  else if field == "email" then
    if db.users.any (fun v => v.uid != id && v.email == value)
    then .error .duplicateKey
    else .ok { u with email := value }
  else if field == "googleId" then
    if db.users.any (fun v => v.uid != id && v.googleId == some value)
    then .error .duplicateKey
    else .ok { u with googleId := some value }
  else if field == "password" then .ok { u with password := value }
  else if field == "phone" then .ok { u with phone := some value }
  else if field == "profileImage" then .ok { u with profileImage := some value }
  else if field == "role" then .ok { u with role := value }
  else if field == "likes" then
    if isObjectIdHex value then .ok { u with likes := [value] }
    else .error .castError
  else .ok u

/-- Modelled from the spec: `post.set(field, value)` followed by
`post.save()` for a string `value`.  The current snapshot's
`post.model.ts` is not under `src/`, so the paths and cast rules follow
§3's data model — title/description/category are plain strings, `image` a
string reference, `price` is numeric so the value must cast as a decimal
numeral (Mongoose casts via JS `Number`, restricted here to the unsigned
decimal forms the application produces; the empty string casts to 0),
`author`, `likes` and `comments` are ObjectId references so a
non-castable value raises a CastError surfaced by `save()`; unknown paths
are discarded by strict mode. -/
def mongoosePostSet (p : StoredPost) (field value : String) :
    Except DbErr StoredPost :=
  if field == "title" then .ok { p with title := value }
  else if field == "description" then .ok { p with description := value }
  else if field == "category" then .ok { p with category := value }
  else if field == "image" then .ok { p with image := some value }
  else if field == "price" then
    match numberQ value with
    | some q => .ok { p with price := q }
    | none => .error .castError
  else if field == "author" then
    if isObjectIdHex value then .ok { p with author := value }
    else .error .castError
  else if field == "likes" then
    if isObjectIdHex value then .ok { p with likes := [value] }
    else .error .castError
  else if field == "comments" then
    if isObjectIdHex value then .ok { p with comments := [value] }
    else .error .castError
  else .ok p

/-- Outcome of `updateUserField`: HTTP status, resulting state, and the
user document of the response body (when any). -/
structure UserFieldResult where
  status : Nat
  db : Db
  returnedUser : Option StoredUser
deriving Repr, DecidableEq

/-- `updateUserField` (`user.controller.ts:334-412`).  `caller` is the
authenticated identity attached by the auth middleware; the handler body
never reads it.  Body values are modelled as strings, so the JS
`typeof value === "string"` trim guard always applies.  A rejected
`findByIdAndUpdate` promise (CastError, E11000) lands in the catch block,
whose `next(error)` reaches the global 500 handler. -/
def updateUserField (caller : String) (db : Db) (id field value : String) :
    UserFieldResult :=
  if id == "" || field == "" then ⟨400, db, none⟩
  else if field == "phone" && !(phoneTest value) then ⟨400, db, none⟩
  else
    let value' := jsTrim value
    if field == "profileImage" then
      match findUser db id with
      | none => ⟨404, db, none⟩
      | some u =>
        let db1 := match u.profileImage with
          | some old => deleteFile db old
          | none => db
        match findUser db1 id with
        | none => ⟨404, db1, none⟩
        | some u1 =>
          match mongooseUpdateUser db1 id u1 field value' with
          | .error _ => ⟨500, db1, none⟩
          | .ok u' => ⟨200, saveUser db1 u', some u'⟩
    else
      match findUser db id with
      | none => ⟨404, db, none⟩
      | some u =>
        match mongooseUpdateUser db id u field value' with
        | .error _ => ⟨500, db, none⟩
        | .ok u' => ⟨200, saveUser db u', some u'⟩

/-- Outcome of `updatePostField`. -/
structure PostFieldResult where
  status : Nat
  db : Db
  returnedPost : Option StoredPost
deriving Repr, DecidableEq

/-- `updatePostField` (`post.controller.ts:543-587`).  The ownership check
is commented out in the source; `caller` is attached by the middleware and
never read.  A `post.save()` rejection (cast failure recorded by
`post.set`) lands in the catch block and reaches the global 500
handler. -/
def updatePostField (caller : String) (db : Db) (id field value : String) :
    PostFieldResult :=
  if id == "" || field == "" then ⟨400, db, none⟩
  else
    match findPost db id with
    | none => ⟨404, db, none⟩
    | some p =>
      match mongoosePostSet p field (jsTrim value) with
      | .error _ => ⟨500, db, none⟩
      | .ok p' => ⟨200, savePost db p', some p'⟩

/-! ## Like / Unlike (`post.controller.ts:473-541`) -/

/-- Outcome of `likePost`/`unlikePost`: status, state, and the
`likedPosts` array of the 200 body (`none` on error statuses). -/
structure LikeResult where
  status : Nat
  db : Db
  likedPosts : Option (List String)
deriving Repr, DecidableEq

/-- `likePost`: guard on the post id being in the user's `likes` array,
push and save only when absent. -/
def likePost (db : Db) (callerId postId : String) : LikeResult :=
  match findPost db postId with
  | none => ⟨404, db, none⟩
  | some _ =>
    match findUser db callerId with
    | none => ⟨404, db, none⟩
    | some u =>
      if u.likes.contains postId then ⟨200, db, some u.likes⟩
      else
        let u' := { u with likes := u.likes ++ [postId] }
        ⟨200, saveUser db u', some u'.likes⟩

/-- `unlikePost`: filter the post id out of the user's `likes` array and
save unconditionally. -/
def unlikePost (db : Db) (callerId postId : String) : LikeResult :=
  match findPost db postId with
  | none => ⟨404, db, none⟩
  | some _ =>
    match findUser db callerId with
    | none => ⟨404, db, none⟩
    | some u =>
      let u' := { u with likes := u.likes.filter (fun l => l != postId) }
      ⟨200, saveUser db u', some u'.likes⟩

/-! ## Comment deletion (`comment.controller.ts:202-246`) -/

/-- Outcome of `deleteComment`. -/
structure DeleteCommentResult where
  status : Nat
  db : Db
deriving Repr, DecidableEq

/-- `deleteComment`: allowed for the comment's author or the post's
owner; on success `$pull` the comment id from the post and delete the
comment document. -/
def deleteComment (db : Db) (caller postId commentId : String) :
    DeleteCommentResult :=
  match findComment db commentId with
  | none => ⟨404, db⟩
  | some c =>
    match findPost db postId with
    | none => ⟨404, db⟩
    | some p =>
      let isCommentAuthor := c.author == caller
      let isPostOwner := p.author == caller
      if !isCommentAuthor && !isPostOwner then ⟨403, db⟩
      else
        let db1 := { db with posts := db.posts.map (fun (q : StoredPost) =>
          if q.pid == postId
          then { q with comments := q.comments.filter (fun x => x != commentId) }
          else q) }
        let db2 := { db1 with comments := db1.comments.filter (fun x => x.cid != commentId) }
        ⟨200, db2⟩

/-! ## Post update / delete (`post.controller.ts:380-472`) -/

/-- Outcome of `updatePost` / `deletePost`. -/
structure PostMutationResult where
  status : Nat
  db : Db
deriving Repr, DecidableEq

/-- `updatePost`: `!post || !user || (author ≠ caller ∧ role ≠ admin)`
collapses into a single 403; body fields use JS `x || old` defaulting
(empty string / numeric zero are falsy); a new upload replaces the image
file. -/
def updatePost (db : Db) (caller id : String)
    (title description category : String) (price : Option ℚ)
    (file : Option String) : PostMutationResult :=
  match findPost db id, findUser db caller with
  | some p, some u =>
    if p.author != caller && u.role != "admin" then ⟨403, db⟩
    else
      let p1 := { p with
        title := if title == "" then p.title else title,
        price := (match price with
          | some q => if q == 0 then p.price else q
          | none => p.price),
        description := if description == "" then p.description else description,
        category := if category == "" then p.category else category }
      match file with
      | some fname =>
        let db1 := match p.image with
          | some old => deleteFile db old
          | none => db
        ⟨200, savePost db1 { p1 with image := some fname }⟩
      | none => ⟨200, savePost db p1⟩
  | _, _ => ⟨403, db⟩

/-- `deletePost`: same merged guard; deletes the image file and the post
document. -/
def deletePost (db : Db) (caller id : String) : PostMutationResult :=
  match findPost db id, findUser db caller with
  | some p, some u =>
    if p.author != caller && u.role != "admin" then ⟨403, db⟩
    else
      let db1 := match p.image with
        | some old => deleteFile db old
        | none => db
      ⟨200, { db1 with posts := db1.posts.filter (fun q => q.pid != id) }⟩
  | _, _ => ⟨403, db⟩

/-! ## Registration and login (`auth.controller.ts:6-67`,
`user.model.ts`) -/

/-- Model of `bcrypt.hash(p, 10)`: an injective tagging of the plaintext.
The handlers only rely on `bcrypt.compare(p, h)` succeeding exactly when
`h` came from hashing `p`, which this captures. -/
def bcryptHash (plain : String) : String := "$2b$10$" ++ plain

/-- Model of `bcrypt.compare(plain, hash)`. -/
def bcryptCompare (plain hash : String) : Bool := hash == bcryptHash plain

/-- `User.create`: Mongoose runs the schema's required validators
(username and email must be non-empty; the password is always the
non-empty bcrypt output here) and the unique indexes on `email` and
`username`; any violation raises, which the controller forwards with
`next(error)`.  `none` models the raised error. -/
def userCreate (db : Db) (nu : StoredUser) : Option Db :=
  if nu.username == "" || nu.email == "" then none
  else if db.users.any (fun u => u.email == nu.email || u.username == nu.username)
  then none
  else some { db with users := db.users ++ [nu] }

/-- Outcome of `registerUser`. -/
structure RegisterResult where
  status : Nat
  db : Db
deriving Repr, DecidableEq

/-- `registerUser` (`auth.controller.ts:6-34`): hash the password, create
the user (phone only when truthy).  A `User.create` error reaches the
global error handler (`errorHandler` in `user.model.ts:37-48`), which
answers 500 with a generic message.  `freshId` is the ObjectId the
database generates for the new document. -/
def registerUser (db : Db) (freshId username email password phone : String) :
    RegisterResult :=
  let nu : StoredUser :=
    { uid := freshId, username := username, email := email,
      password := bcryptHash password, googleId := none,
      phone := if phone == "" then none else some phone,
      profileImage := none, role := "user", likes := [] }
  match userCreate db nu with
  | some db' => ⟨201, db'⟩
  | none => ⟨500, db⟩

/-! ## Tokens (`jsonwebtoken` as used by `auth.controller.ts`) -/

/-- A JWT as the handlers see it: either a structure signed with some
secret, carrying the `id` claim and the `exp` time, or an unparseable
blob. -/
inductive Token where
  | signed (secret : String) (sub : Option String) (exp : Nat)
  | malformed (raw : String)
deriving Repr, DecidableEq

/-- Result of `jwt.verify`. -/
inductive VerifyOutcome where
  | expired
  | invalid
  | ok (sub : Option String) (exp : Nat)
deriving Repr, DecidableEq

/-- `jwt.verify(token, secret)` at time `now`: malformed structure or a
signature by a different secret throw `JsonWebTokenError` (invalid); a
well-signed token whose `exp` has passed throws `TokenExpiredError`. -/
def jwtVerify (t : Token) (secret : String) (now : Nat) : VerifyOutcome :=
  match t with
  | .malformed _ => .invalid
  | .signed s sub exp =>
    if s != secret then .invalid
    else if exp ≤ now then .expired
    else .ok sub exp

/-- `jwt.sign({id: sub}, secret, {expiresIn: ttl})` at time `now`. -/
def jwtSign (sub secret : String) (now ttl : Nat) : Token :=
  .signed secret (some sub) (now + ttl)

/-- Outcome of `loginUser`: status, body token, and the body's `role`
property (the handler's 200 body is `{message, token}`). -/
structure LoginResult where
  status : Nat
  token : Option Token
  role : Option String
  message : String
deriving Repr, DecidableEq

/-- `loginUser` (`auth.controller.ts:36-67`). -/
def loginUser (db : Db) (email password secret : String) (now : Nat) :
    LoginResult :=
  match db.users.find? (fun u => u.email == email) with
  | none => ⟨404, none, none, "User not found"⟩
  | some u =>
    if !(bcryptCompare password u.password) then
      ⟨401, none, none, "Invalid credentials"⟩
    else
      ⟨200, some (jwtSign u.uid secret now 3600), none, "Login successful"⟩

/-- Outcome of `refreshToken`. -/
structure RefreshResult where
  status : Nat
  message : String
  token : Option Token
deriving Repr, DecidableEq

/-- `refreshToken` (`auth.controller.ts:69-117`): missing token 400;
expired 403 with the expiry-specific message; invalid 403; a payload
without a truthy `id` claim 403; otherwise a fresh one-hour token for the
same subject. -/
def refreshToken (tok : Option Token) (secret : String) (now : Nat) :
    RefreshResult :=
  match tok with
  | none => ⟨400, "Refresh token is required", none⟩
  | some t =>
    match jwtVerify t secret now with
    | .expired => ⟨403, "Refresh token has expired", none⟩
    | .invalid => ⟨403, "Invalid refresh token", none⟩
    | .ok sub _ =>
      match sub with
      | none => ⟨403, "Invalid refresh token payload", none⟩
      | some uid =>
        if uid == "" then ⟨403, "Invalid refresh token payload", none⟩
        else ⟨200, "Token refreshed successfully",
              some (jwtSign uid secret now 3600)⟩

/-! ## AI price suggestion (`auth.controller.ts:283-362`) -/

/-- The fractional digits after a leading dot, if any. -/
def dotFracDigits (l : List Char) : List Char :=
  match l with
  | '.' :: rest => (digitsPrefix rest).1
  | _ => []

/-- JS `parseFloat` restricted to the inputs the handler produces (no
leading whitespace, no sign, no exponent — the argument is always a
string of digits and dots here): parse `digits [ "." digits ]` as an
exact rational, `none` for NaN (no digits parsed). -/
def parseFloatQ (s : String) : Option ℚ :=
  let d1 := (digitsPrefix s.data).1
  let d2 := dotFracDigits (digitsPrefix s.data).2
  if d1 = [] ∧ d2 = [] then none
  else some ((natOfDigits d1 : ℚ) + (natOfDigits d2 : ℚ) / 10 ^ d2.length)

/-- `aiMessage.replace(/[^0-9.]/g, "")`: delete every character that is
neither a decimal digit nor a dot. -/
def stripNonNumeric (s : String) : String :=
  ⟨s.data.filter (fun c => c.isDigit || c == '.')⟩

/-- The extraction the handler performs on the reply text:
`parseFloat(aiMessage.replace(/[^0-9.]/g, ""))`, `null` for NaN. -/
def extractPrice (aiMessage : String) : Option ℚ :=
  parseFloatQ (stripNonNumeric aiMessage)

/-- What the spec's words describe ("parses the first numeric substring
out of the free-text reply"): scan for the first position where a number
starts (a digit, or a dot followed by a digit) and parse the maximal
number there. -/
def firstNumericSubstring (s : String) : Option ℚ :=
  go s.data
where
  go : List Char → Option ℚ
  | [] => none
  | c :: cs =>
    if c.isDigit then parseFloatQ ⟨c :: cs⟩
    else if c == '.' && (match cs with | d :: _ => d.isDigit | [] => false)
    then parseFloatQ ⟨c :: cs⟩
    else go cs

/-- One part of a Gemini candidate's content. -/
structure GeminiPart where
  text : Option String
deriving Repr, DecidableEq

/-- The content of a Gemini candidate (a missing `parts` array is
identified with an empty one; the handler treats both the same). -/
structure GeminiContent where
  parts : List GeminiPart
deriving Repr, DecidableEq

/-- A Gemini candidate. -/
structure GeminiCandidate where
  content : Option GeminiContent
deriving Repr, DecidableEq

/-- The upstream response body. -/
structure GeminiResponse where
  candidates : List GeminiCandidate
deriving Repr, DecidableEq

/-- Outcome of `generateSuggestedPrice`; `contacted` records whether the
upstream request was issued. -/
structure AiResult where
  status : Nat
  message : String
  suggestedPrice : Option ℚ
  contacted : Bool
deriving Repr, DecidableEq

/-- `generateSuggestedPrice` (`auth.controller.ts:283-362`).  Request
fields arrive as form-data text; a JS-falsy (absent or empty) field is
the empty string.  `resp` is the upstream reply the call would get. -/
def generateSuggestedPrice (title description category : String)
    (apiKey : Option String) (resp : GeminiResponse) : AiResult :=
  if title == "" || description == "" || category == "" then
    ⟨400, "Missing required fields", none, false⟩
  else if apiKey.getD "" == "" then
    ⟨500, "AI API Key is missing", none, false⟩
  else
    match resp.candidates with
    | [] => ⟨500, "No suggestions found from AI.", none, true⟩
    | cand :: _ =>
      match cand.content with
      | none => ⟨500, "No content returned from AI.", none, true⟩
      | some content =>
        match content.parts with
        | [] => ⟨500, "No content returned from AI.", none, true⟩
        | part :: _ =>
          let aiMessage :=
            match part.text with
            | some t => if t == "" then "No response from AI." else t
            | none => "No response from AI."
          ⟨200, aiMessage, extractPrice aiMessage, true⟩

/-! ## Helper lemmas -/

/-- Replacing the record with a given key in a list and then looking the
key up yields the replacement, provided the key was present. -/
theorem find?_map_replace {α : Type} (key : α → String) (a' : α) (l : List α)
    (u : α) (id : String) (hk : key a' = id)
    (h : l.find? (fun x => key x == id) = some u) :
    (l.map (fun x => if key x == key a' then a' else x)).find?
      (fun x => key x == id) = some a' := by
  induction l with
  | nil => simp at h
  | cons x xs ih =>
    simp only [List.map_cons]
    by_cases hx : (key x == id) = true
    · have hfx : (if key x == key a' then a' else x) = a' := by
        rw [if_pos]
        rw [hk]
        exact hx
      rw [hfx]
      exact List.find?_cons_of_pos _ (by simp [hk])
    · have hfx : (if key x == key a' then a' else x) = x := by
        rw [if_neg]
        intro hc
        apply hx
        rw [hk] at hc
        exact hc
      rw [hfx]
      rw [Bool.not_eq_true] at hx
      simp only [List.find?_cons, hx] at h ⊢
      exact ih h

/-- Saving a user whose id resolves makes subsequent lookup return the
saved document. -/
theorem findUser_saveUser {db : Db} {u' u : StoredUser} {id : String}
    (hk : u'.uid = id) (h : findUser db id = some u) :
    findUser (saveUser db u') id = some u' :=
  find?_map_replace StoredUser.uid u' db.users u id hk h

/-- Saving a post whose id resolves makes subsequent lookup return the
saved document. -/
theorem findPost_savePost {db : Db} {p' p : StoredPost} {id : String}
    (hk : p'.pid = id) (h : findPost db id = some p) :
    findPost (savePost db p') id = some p' :=
  find?_map_replace StoredPost.pid p' db.posts p id hk h

/-- `saveUser` leaves the posts collection untouched. -/
theorem findPost_saveUser (db : Db) (u : StoredUser) (id : String) :
    findPost (saveUser db u) id = findPost db id := rfl

/-- A successful lookup pins the record's id. -/
theorem findUser_uid {db : Db} {u : StoredUser} {id : String}
    (h : findUser db id = some u) : u.uid = id := by
  have := List.find?_some h
  simpa using this

/-- A successful post lookup pins the record's id. -/
theorem findPost_pid {db : Db} {p : StoredPost} {id : String}
    (h : findPost db id = some p) : p.pid = id := by
  have := List.find?_some h
  simpa using this

/-- A successful comment lookup pins the record's id. -/
theorem findComment_cid {db : Db} {c : StoredComment} {id : String}
    (h : findComment db id = some c) : c.cid = id := by
  have := List.find?_some h
  simpa using this

/-- A successful `mongooseUpdateUser` never changes the document id. -/
theorem mongooseUpdateUser_uid {db : Db} {id : String} {u u' : StoredUser}
    {field value : String}
    (h : mongooseUpdateUser db id u field value = .ok u') : u'.uid = u.uid := by
  unfold mongooseUpdateUser at h
  split_ifs at h <;> (injection h with h; rw [← h])

/-- A digit is not whitespace. -/
theorem digit_not_ws {c : Char} (h : c.isDigit = true) :
    c.isWhitespace = false := by
  by_contra hw
  rw [Bool.not_eq_false] at hw
  simp only [Char.isWhitespace, Bool.or_eq_true, decide_eq_true_eq] at hw
  rcases hw with ((h1 | h1) | h1) | h1 <;> subst h1 <;> exact absurd h (by decide)

/-- Dropping leading whitespace from a whitespace-free list is the
identity. -/
theorem dropWhile_ws_eq_self {l : List Char}
    (h : ∀ c ∈ l, c.isWhitespace = false) :
    l.dropWhile Char.isWhitespace = l := by
  cases l with
  | nil => rfl
  | cons c cs =>
    rw [List.dropWhile_cons, h c (by simp)]
    simp

/-- Trimming a whitespace-free list is the identity. -/
theorem trimList_eq_self {l : List Char}
    (h : ∀ c ∈ l, c.isWhitespace = false) : trimList l = l := by
  unfold trimList
  rw [dropWhile_ws_eq_self h,
      dropWhile_ws_eq_self (fun c hc => h c (List.mem_reverse.mp hc)),
      List.reverse_reverse]

/-- If trimming changes a list, the list holds a whitespace character. -/
theorem trimList_ne_imp_ws {l : List Char} (h : trimList l ≠ l) :
    ∃ c ∈ l, c.isWhitespace = true := by
  by_contra hc
  push_neg at hc
  exact h (trimList_eq_self (fun c hcl => by simpa using hc c hcl))

/-- JS trim is the identity on all-digit strings. -/
theorem jsTrim_eq_self_of_digits {s : String}
    (h : s.data.all Char.isDigit = true) : jsTrim s = s := by
  cases s with
  | mk data =>
    rw [List.all_eq_true] at h
    simp only [jsTrim]
    exact congrArg String.mk
      (trimList_eq_self (fun c hc => digit_not_ws (by simpa using h c hc)))

/-- A string whose trim differs from it cannot pass the ten-digit phone
regex. -/
theorem phoneTest_false_of_untrimmed {s : String} (h : jsTrim s ≠ s) :
    phoneTest s = false := by
  have hne : trimList s.data ≠ s.data := by
    intro he
    exact h (by cases s; exact congrArg String.mk he)
  obtain ⟨c, hc, hw⟩ := trimList_ne_imp_ws hne
  have hd : c.isDigit = false := by
    by_contra hdd
    rw [Bool.not_eq_false] at hdd
    rw [digit_not_ws hdd] at hw
    exact Bool.false_ne_true hw
  have hall : s.data.all Char.isDigit = false := by
    by_contra hta
    rw [Bool.not_eq_false, List.all_eq_true] at hta
    have := hta c hc
    rw [hd] at this
    exact Bool.false_ne_true this
  unfold phoneTest
  rw [hall, Bool.and_false]

/-- All-digit strings of length ten pass the phone regex, so `phoneTest`
pins both facts. -/
theorem phoneTest_digits {s : String} (h : phoneTest s = true) :
    s.data.all Char.isDigit = true := by
  unfold phoneTest at h
  simp only [Bool.and_eq_true] at h
  exact h.2

/-- `==` on strings is false symmetrically. -/
theorem beq_false_symm {a b : String} (h : (a == b) = false) :
    (b == a) = false := by
  by_contra hh
  rw [Bool.not_eq_false] at hh
  rw [eq_of_beq hh] at h
  simp at h

/-- Filtering out an absent element is the identity. -/
theorem filter_ne_of_not_contains {l : List String} {a : String}
    (h : l.contains a = false) : l.filter (fun x => x != a) = l := by
  induction l with
  | nil => rfl
  | cons x xs ih =>
    simp only [List.contains_cons, Bool.or_eq_false_iff] at h
    have hcond : (x != a) = true := by
      simp [bne, beq_false_symm h.1]
    rw [List.filter_cons]
    simp only [hcond, if_true]
    rw [ih h.2]

/-- An absent element has count zero. -/
theorem count_eq_zero_of_not_contains {l : List String} {a : String}
    (h : l.contains a = false) : l.count a = 0 := by
  induction l with
  | nil => rfl
  | cons x xs ih =>
    simp only [List.contains_cons, Bool.or_eq_false_iff] at h
    rw [List.count_cons, ih h.2, beq_false_symm h.1]
    simp

/-- The digit prefix of a digit-free list is empty. -/
theorem digitsPrefix_of_no_digit {l : List Char}
    (h : ∀ c ∈ l, c.isDigit = false) : digitsPrefix l = ([], l) := by
  cases l with
  | nil => rfl
  | cons c cs =>
    unfold digitsPrefix
    rw [h c (by simp)]
    simp

/-- `dotFracDigits` of a digit-free list is empty. -/
theorem dotFracDigits_of_no_digit {l : List Char}
    (h : ∀ c ∈ l, c.isDigit = false) : dotFracDigits l = [] := by
  cases l with
  | nil => rfl
  | cons c cs =>
    by_cases hc : c = '.'
    · subst hc
      show (digitsPrefix cs).1 = []
      rw [digitsPrefix_of_no_digit (fun d hd => h d (List.mem_cons_of_mem _ hd))]
    · unfold dotFracDigits
      split
      · next heq =>
        injection heq with h1 _
        exact absurd h1 hc
      · rfl

/-- `parseFloatQ` is NaN on digit-free strings. -/
theorem parseFloatQ_none_of_no_digit {s : String}
    (h : ∀ c ∈ s.data, c.isDigit = false) : parseFloatQ s = none := by
  have h1 : (digitsPrefix s.data).1 = [] := by
    rw [digitsPrefix_of_no_digit h]
  have h2 : (digitsPrefix s.data).2 = s.data := by
    rw [digitsPrefix_of_no_digit h]
  unfold parseFloatQ
  rw [h1, h2, dotFracDigits_of_no_digit h]
  simp

/-! ## Witness fixtures -/

/-- A sample user. -/
def wUser : StoredUser :=
  ⟨"u1", "alice", "a@x.com", bcryptHash "pw", none, none, none, "user", []⟩

/-- A second sample user. -/
def wUser2 : StoredUser :=
  ⟨"u2", "bob", "b@x.com", bcryptHash "pw2", none, none, none, "user", []⟩

/-- A sample post owned by `wUser`. -/
def wPost : StoredPost :=
  ⟨"p1", "u1", "Chair", "A chair", "Furniture", 10, none, [], ["c1"]⟩

/-- A sample comment on `wPost` authored by `wUser2`. -/
def wComment : StoredComment := ⟨"c1", "p1", "u2", "nice"⟩

/-- A sample database state. -/
def wDb : Db := ⟨[wUser, wUser2], [wPost], [wComment], []⟩

/-! ## Claims -/

/-- **C1**: the generic field-update handlers perform no ownership check:
for every state, record id, field name and value, and any two distinct
authenticated caller identities, `updateUserField` and `updatePostField`
perform the same update and return the same result — the outcome is
independent of which authenticated user makes the call. -/
theorem c1_field_update_ignores_caller (db : Db)
    (id field value pid pfield pvalue c1 c2 : String) (hne : c1 ≠ c2) :
    updateUserField c1 db id field value = updateUserField c2 db id field value ∧
    updatePostField c1 db pid pfield pvalue = updatePostField c2 db pid pfield pvalue :=
  ⟨rfl, rfl⟩

/-- Witness for C1 at concrete distinct callers. -/
theorem c1_field_update_ignores_caller_witness :
    updateUserField "alice" wDb "u1" "username" "Al"
      = updateUserField "bob" wDb "u1" "username" "Al" ∧
    updatePostField "alice" wDb "p1" "title" "T"
      = updatePostField "bob" wDb "p1" "title" "T" :=
  c1_field_update_ignores_caller wDb "u1" "username" "Al" "p1" "title" "T"
    "alice" "bob" (by decide)

/-- The phone branch of `updateUserField` rejects with 400 and leaves the
state untouched whenever the raw value fails the ten-digit regex. -/
theorem updateUserField_phone_reject {db : Db} {caller id value : String}
    (hraw : phoneTest value = false) :
    updateUserField caller db id "phone" value = ⟨400, db, none⟩ := by
  unfold updateUserField
  by_cases hid : (id == "") = true
  · rw [if_pos (by rw [hid]; rfl)]
  · rw [Bool.not_eq_true] at hid
    rw [if_neg (by rw [hid]; decide)]
    rw [if_pos (by rw [hraw]; decide)]

/-- **C2**: for every user field-update request targeting the phone
field: a value failing the ten-decimal-digit test is rejected with 400
and the state is unchanged; a value of exactly ten decimal digits is
accepted and persisted exactly; for every other field the value that
reaches the Mongoose update is the trimmed string — when that update
succeeds the trimmed-value document is stored and returned with 200, and
when it raises (CastError on the likes array, E11000 on the unique
username/email/googleId indexes) the handler answers 500 with the state
untouched. -/
theorem c2_phone_field_validation (db : Db) (caller id value : String) :
    (phoneTest value = false →
      updateUserField caller db id "phone" value = ⟨400, db, none⟩) ∧
    (phoneTest value = true → id ≠ "" → ∀ u, findUser db id = some u →
      (updateUserField caller db id "phone" value).status = 200 ∧
      findUser (updateUserField caller db id "phone" value).db id =
        some { u with phone := some value }) ∧
    (∀ field u, field ≠ "" → field ≠ "phone" → field ≠ "profileImage" →
      id ≠ "" → findUser db id = some u →
      (∀ u', mongooseUpdateUser db id u field (jsTrim value) = .ok u' →
        updateUserField caller db id field value =
          ⟨200, saveUser db u', some u'⟩ ∧
        findUser (saveUser db u') id = some u') ∧
      (∀ e, mongooseUpdateUser db id u field (jsTrim value) = .error e →
        updateUserField caller db id field value = ⟨500, db, none⟩)) := by
  refine ⟨fun hraw => updateUserField_phone_reject hraw, ?_, ?_⟩
  · intro hph hid u hu
    have htr : jsTrim value = value := jsTrim_eq_self_of_digits (phoneTest_digits hph)
    have hid' : (id == "") = false := beq_eq_false_iff_ne.mpr hid
    have hred : updateUserField caller db id "phone" value =
        (match mongooseUpdateUser db id u "phone" (jsTrim value) with
         | .error _ => (⟨500, db, none⟩ : UserFieldResult)
         | .ok u' => ⟨200, saveUser db u', some u'⟩) := by
      unfold updateUserField
      rw [if_neg (by rw [hid']; decide)]
      rw [if_neg (by rw [hph]; decide)]
      rw [if_neg (by decide)]
      rw [hu]
    have hset : mongooseUpdateUser db id u "phone" (jsTrim value) =
        .ok { u with phone := some value } := by
      rw [htr]
      unfold mongooseUpdateUser
      rw [if_neg (by decide), if_neg (by decide), if_neg (by decide),
          if_neg (by decide), if_pos (by decide)]
    rw [hred, hset]
    exact ⟨rfl, findUser_saveUser (by simpa using findUser_uid hu) hu⟩
  · intro field u hf hfp hfi hid hu
    have hid' : (id == "") = false := beq_eq_false_iff_ne.mpr hid
    have hf' : (field == "") = false := beq_eq_false_iff_ne.mpr hf
    have hfp' : (field == "phone") = false := beq_eq_false_iff_ne.mpr hfp
    have hfi' : (field == "profileImage") = false := beq_eq_false_iff_ne.mpr hfi
    have hred : updateUserField caller db id field value =
        (match mongooseUpdateUser db id u field (jsTrim value) with
         | .error _ => (⟨500, db, none⟩ : UserFieldResult)
         | .ok u' => ⟨200, saveUser db u', some u'⟩) := by
      unfold updateUserField
      rw [if_neg (by rw [hid', hf']; decide)]
      rw [if_neg (by rw [hfp']; simp)]
      rw [if_neg (by rw [hfi']; decide)]
      rw [hu]
    refine ⟨fun u' hok => ⟨by rw [hred, hok], ?_⟩, fun e herr => by rw [hred, herr]⟩
    exact findUser_saveUser
      ((mongooseUpdateUser_uid hok).trans (findUser_uid hu)) hu

/-- Witness for C2: rejection of `"12345"`, acceptance of
`"1234567890"`, trimmed storage of a password value, and the 500 of a
cast failure on the likes path. -/
theorem c2_phone_field_validation_witness :
    updateUserField "c" wDb "u1" "phone" "12345" = ⟨400, wDb, none⟩ ∧
    ((updateUserField "c" wDb "u1" "phone" "1234567890").status = 200 ∧
      findUser (updateUserField "c" wDb "u1" "phone" "1234567890").db "u1" =
        some { wUser with phone := some "1234567890" }) ∧
    (updateUserField "c" wDb "u1" "password" " pw9 " =
        ⟨200, saveUser wDb { wUser with password := "pw9" },
          some { wUser with password := "pw9" }⟩ ∧
      findUser (saveUser wDb { wUser with password := "pw9" }) "u1" =
        some { wUser with password := "pw9" }) ∧
    updateUserField "c" wDb "u1" "likes" "xyz" = ⟨500, wDb, none⟩ :=
  ⟨(c2_phone_field_validation wDb "c" "u1" "12345").1 (by decide),
   (c2_phone_field_validation wDb "c" "u1" "1234567890").2.1 (by decide)
     (by decide) wUser (by decide),
   ((c2_phone_field_validation wDb "c" "u1" " pw9 ").2.2 "password" wUser
     (by decide) (by decide) (by decide) (by decide) (by decide)).1
     { wUser with password := "pw9" } rfl,
   ((c2_phone_field_validation wDb "c" "u1" "xyz").2.2 "likes" wUser
     (by decide) (by decide) (by decide) (by decide) (by decide)).2
     DbErr.castError rfl⟩

/-- **C10**: the phone-format check runs on the raw value before
trimming: every value that is not already trimmed but whose trim passes
the ten-digit test (ten decimal digits surrounded by whitespace) is
rejected with 400 and the state is unchanged. -/
theorem c10_phone_check_precedes_trim (db : Db) (caller id value : String)
    (htrim : phoneTest (jsTrim value) = true) (hne : jsTrim value ≠ value) :
    updateUserField caller db id "phone" value = ⟨400, db, none⟩ :=
  updateUserField_phone_reject (phoneTest_false_of_untrimmed hne)

/-- Witness for C10 at the whitespace-padded value `" 1234567890 "`. -/
theorem c10_phone_check_precedes_trim_witness :
    updateUserField "c" wDb "u1" "phone" " 1234567890 " = ⟨400, wDb, none⟩ :=
  c10_phone_check_precedes_trim wDb "c" "u1" " 1234567890 " (by decide)
    (by decide)

/-- **C9**: a post update or post delete whose post id does not resolve
answers 403 (the not-found case is merged into the authorization check),
never 404, and leaves the state unchanged. -/
theorem c9_missing_post_yields_403 (db : Db) (caller id : String)
    (title description category : String) (price : Option ℚ)
    (file : Option String) (h : findPost db id = none) :
    (updatePost db caller id title description category price file).status = 403 ∧
    (updatePost db caller id title description category price file).db = db ∧
    (deletePost db caller id).status = 403 ∧
    (deletePost db caller id).db = db := by
  unfold updatePost deletePost
  rw [h]
  cases findUser db caller <;> exact ⟨rfl, rfl, rfl, rfl⟩

/-- Witness for C9 at an unresolvable post id. -/
theorem c9_missing_post_yields_403_witness :
    (updatePost wDb "u1" "nope" "" "" "" none none).status = 403 ∧
    (updatePost wDb "u1" "nope" "" "" "" none none).db = wDb ∧
    (deletePost wDb "u1" "nope").status = 403 ∧
    (deletePost wDb "u1" "nope").db = wDb :=
  c9_missing_post_yields_403 wDb "u1" "nope" "" "" "" none none (by decide)

/-- **C4**: for every existing post and every authenticated user that
never liked it, like is idempotent and unlike is a no-op on absence:
liking puts the like-set cardinality at 1, liking again returns 200 and
leaves the state unchanged, and unliking without a prior like returns
200 (no error) and leaves the user's like-set unchanged (cardinality
0). -/
theorem c4_like_idempotent_unlike_noop (db : Db) (uid pid : String)
    (p : StoredPost) (u : StoredUser)
    (hp : findPost db pid = some p) (hu : findUser db uid = some u)
    (hnot : u.likes.contains pid = false) :
    (likePost db uid pid).status = 200 ∧
    (findUser (likePost db uid pid).db uid).map
      (fun x => x.likes.count pid) = some 1 ∧
    (likePost (likePost db uid pid).db uid pid).status = 200 ∧
    (likePost (likePost db uid pid).db uid pid).db = (likePost db uid pid).db ∧
    (unlikePost db uid pid).status = 200 ∧
    findUser (unlikePost db uid pid).db uid = some u := by
  have hu1 : u.uid = uid := findUser_uid hu
  have hmem : pid ∉ u.likes := by
    intro hm
    have hel : u.likes.contains pid = true := List.elem_iff.mpr hm
    rw [hnot] at hel
    exact Bool.false_ne_true hel
  have key1 : likePost db uid pid =
      ⟨200, saveUser db { u with likes := u.likes ++ [pid] },
        some (u.likes ++ [pid])⟩ := by
    simp [likePost, hp, hu, hmem]
  have key2 : findUser (saveUser db { u with likes := u.likes ++ [pid] }) uid =
      some { u with likes := u.likes ++ [pid] } :=
    findUser_saveUser (by simpa using hu1) hu
  have key3 : findPost (saveUser db { u with likes := u.likes ++ [pid] }) pid =
      some p := by
    rw [findPost_saveUser]
    exact hp
  have hcont : (u.likes ++ [pid]).contains pid = true :=
    List.elem_iff.mpr (by simp)
  have key4 : likePost (saveUser db { u with likes := u.likes ++ [pid] }) uid pid =
      ⟨200, saveUser db { u with likes := u.likes ++ [pid] },
        some (u.likes ++ [pid])⟩ := by
    simp [likePost, key3, key2, hcont]
  have key5 : unlikePost db uid pid =
      ⟨200, saveUser db { u with likes := u.likes.filter (fun l => l != pid) },
        some (u.likes.filter (fun l => l != pid))⟩ := by
    simp [unlikePost, hp, hu]
  have hfil : u.likes.filter (fun l => l != pid) = u.likes :=
    filter_ne_of_not_contains hnot
  refine ⟨by rw [key1], ?_, ?_, ?_, by rw [key5], ?_⟩
  · simp only [key1, key2, Option.map_some']
    rw [List.count_append, count_eq_zero_of_not_contains hnot,
        List.count_singleton_self]
  · simp only [key1, key4]
  · simp only [key1, key4]
  · simp only [key5]
    rw [hfil]
    exact findUser_saveUser hu1 hu

/-- Witness for C4: `wUser2` likes `wPost` twice, unlikes a never-liked
post. -/
theorem c4_like_idempotent_unlike_noop_witness :
    (likePost wDb "u2" "p1").status = 200 ∧
    (findUser (likePost wDb "u2" "p1").db "u2").map
      (fun x => x.likes.count "p1") = some 1 ∧
    (likePost (likePost wDb "u2" "p1").db "u2" "p1").status = 200 ∧
    (likePost (likePost wDb "u2" "p1").db "u2" "p1").db =
      (likePost wDb "u2" "p1").db ∧
    (unlikePost wDb "u2" "p1").status = 200 ∧
    findUser (unlikePost wDb "u2" "p1").db "u2" = some wUser2 :=
  c4_like_idempotent_unlike_noop wDb "u2" "p1" wPost wUser2 (by decide)
    (by decide) (by decide)

/-- Looking up a comment id in a list filtered by that very id finds
nothing. -/
theorem findComment_filter_none (l : List StoredComment) (k : String) :
    (l.filter (fun x => x.cid != k)).find? (fun x => x.cid == k) = none := by
  induction l with
  | nil => rfl
  | cons x xs ih =>
    by_cases hx : (x.cid == k) = true
    · have hb : (x.cid != k) = false := by simp [bne, hx]
      rw [List.filter_cons, if_neg (by simp [hb])]
      exact ih
    · rw [Bool.not_eq_true] at hx
      have hb : (x.cid != k) = true := by simp [bne, hx]
      rw [List.filter_cons, if_pos hb]
      simp only [List.find?_cons, hx]
      exact ih

/-- Pulling a comment id out of the matching post keeps the post
findable, with the id removed from its comments array. -/
theorem findPost_pull_comments (l : List StoredPost) (postId commentId : String)
    (p : StoredPost) (h : l.find? (fun x => x.pid == postId) = some p) :
    (l.map (fun (q : StoredPost) => if q.pid == postId
        then { q with comments := q.comments.filter (fun x => x != commentId) }
        else q)).find? (fun x => x.pid == postId) =
      some { p with comments := p.comments.filter (fun x => x != commentId) } := by
  induction l with
  | nil => simp at h
  | cons x xs ih =>
    simp only [List.map_cons]
    by_cases hx : (x.pid == postId) = true
    · rw [if_pos hx]
      simp only [List.find?_cons, hx] at h
      injection h with h'
      subst h'
      simp [List.find?_cons, hx]
    · rw [Bool.not_eq_true] at hx
      rw [if_neg (by simp [hx])]
      simp only [List.find?_cons, hx] at h ⊢
      exact ih h

/-- When the caller is authorized, `deleteComment` pulls the comment id
from the post and deletes the comment document. -/
theorem deleteComment_success (db : Db) (caller postId commentId : String)
    (c : StoredComment) (p : StoredPost)
    (hc : findComment db commentId = some c) (hp : findPost db postId = some p)
    (hauth : (!(c.author == caller) && !(p.author == caller)) = false) :
    deleteComment db caller postId commentId = ⟨200, { db with
      posts := db.posts.map (fun (q : StoredPost) => if q.pid == postId
        then { q with comments := q.comments.filter (fun x => x != commentId) }
        else q),
      comments := db.comments.filter (fun x => x.cid != commentId) }⟩ := by
  simp [deleteComment, hc, hp, hauth]

/-- **C5**: for every existing comment and its existing parent post,
deleting the comment succeeds iff the caller is the comment's author or
the parent post's owner; any other caller gets 403 with the state
untouched; on success the comment document is gone and its id is removed
from the parent post's comments array. -/
theorem c5_delete_comment_authorization (db : Db)
    (caller postId commentId : String) (c : StoredComment) (p : StoredPost)
    (hc : findComment db commentId = some c) (hcp : c.post = postId)
    (hp : findPost db postId = some p) :
    ((deleteComment db caller postId commentId).status = 200 ↔
      caller = c.author ∨ caller = p.author) ∧
    (caller ≠ c.author → caller ≠ p.author →
      deleteComment db caller postId commentId = ⟨403, db⟩) ∧
    (caller = c.author ∨ caller = p.author →
      findComment (deleteComment db caller postId commentId).db commentId = none ∧
      findPost (deleteComment db caller postId commentId).db postId =
        some { p with comments := p.comments.filter (fun x => x != commentId) }) := by
  by_cases hA : (c.author == caller) = true
  · have hca : caller = c.author := (eq_of_beq hA).symm
    have hsucc := deleteComment_success db caller postId commentId c p hc hp
      (by rw [hA]; rfl)
    refine ⟨?_, fun h1 _ => absurd hca h1, fun _ => ?_⟩
    · rw [hsucc]
      exact ⟨fun _ => Or.inl hca, fun _ => rfl⟩
    · rw [hsucc]
      exact ⟨findComment_filter_none db.comments commentId,
        findPost_pull_comments db.posts postId commentId p hp⟩
  · rw [Bool.not_eq_true] at hA
    by_cases hB : (p.author == caller) = true
    · have hpa : caller = p.author := (eq_of_beq hB).symm
      have hsucc := deleteComment_success db caller postId commentId c p hc hp
        (by rw [hA, hB]; rfl)
      refine ⟨?_, fun _ h2 => absurd hpa h2, fun _ => ?_⟩
      · rw [hsucc]
        exact ⟨fun _ => Or.inr hpa, fun _ => rfl⟩
      · rw [hsucc]
        exact ⟨findComment_filter_none db.comments commentId,
          findPost_pull_comments db.posts postId commentId p hp⟩
    · rw [Bool.not_eq_true] at hB
      have hfail : deleteComment db caller postId commentId = ⟨403, db⟩ := by
        simp [deleteComment, hc, hp, hA, hB]
      have hnd : ¬(caller = c.author ∨ caller = p.author) := by
        rintro (h | h)
        · exact (beq_eq_false_iff_ne.mp hA) h.symm
        · exact (beq_eq_false_iff_ne.mp hB) h.symm
      refine ⟨?_, fun _ _ => hfail, fun hd => absurd hd hnd⟩
      rw [hfail]
      exact ⟨fun h200 => by simp at h200, fun hd => absurd hd hnd⟩

/-- Witness for C5: an unrelated caller is refused and changes nothing; the
comment's author succeeds and the comment disappears. -/
theorem c5_delete_comment_authorization_witness :
    deleteComment wDb "u9" "p1" "c1" = ⟨403, wDb⟩ ∧
    findComment (deleteComment wDb "u2" "p1" "c1").db "c1" = none ∧
    findPost (deleteComment wDb "u2" "p1" "c1").db "p1" =
      some { wPost with comments := wPost.comments.filter (fun x => x != "c1") } :=
  ⟨(c5_delete_comment_authorization wDb "u9" "p1" "c1" wComment wPost
      (by decide) (by decide) (by decide)).2.1 (by decide) (by decide),
   ((c5_delete_comment_authorization wDb "u2" "p1" "c1" wComment wPost
      (by decide) (by decide) (by decide)).2.2 (Or.inl (by decide))).1,
   ((c5_delete_comment_authorization wDb "u2" "p1" "c1" wComment wPost
      (by decide) (by decide) (by decide)).2.2 (Or.inl (by decide))).2⟩

/-- **C3**: for every refresh request: a missing token fails with 400;
an expired token fails with 403 and the expiry-specific message; an
invalid token (wrong signing secret, malformed, or missing subject
claim) fails with 403; a valid token succeeds with 200 and a newly
issued token carrying the same subject id with a fresh one-hour TTL. -/
theorem c3_refresh_token_contract (secret : String) (now : Nat) :
    (refreshToken none secret now).status = 400 ∧
    (∀ sub exp, exp ≤ now →
      refreshToken (some (.signed secret sub exp)) secret now =
        ⟨403, "Refresh token has expired", none⟩) ∧
    (∀ s sub exp, s ≠ secret →
      (refreshToken (some (.signed s sub exp)) secret now).status = 403) ∧
    (∀ raw, (refreshToken (some (.malformed raw)) secret now).status = 403) ∧
    (∀ exp, now < exp →
      (refreshToken (some (.signed secret none exp)) secret now).status = 403) ∧
    (∀ uid exp, now < exp → uid ≠ "" →
      refreshToken (some (.signed secret (some uid) exp)) secret now =
        ⟨200, "Token refreshed successfully",
          some (Token.signed secret (some uid) (now + 3600))⟩) := by
  refine ⟨rfl, ?_, ?_, fun raw => rfl, ?_, ?_⟩
  · intro sub exp hexp
    simp [refreshToken, jwtVerify, hexp]
  · intro s sub exp hs
    have hb : (s != secret) = true := by
      simp [bne, beq_eq_false_iff_ne.mpr hs]
    simp [refreshToken, jwtVerify, hb]
  · intro exp hexp
    have hb : ¬(exp ≤ now) := Nat.not_le.mpr hexp
    simp [refreshToken, jwtVerify, hb]
  · intro uid exp hexp hne
    have hb : ¬(exp ≤ now) := Nat.not_le.mpr hexp
    have hb2 : (uid == "") = false := beq_eq_false_iff_ne.mpr hne
    simp [refreshToken, jwtVerify, jwtSign, hb, hb2]

/-- Witness for C3 at a concrete secret and clock. -/
theorem c3_refresh_token_contract_witness :
    (refreshToken none "sec" 100).status = 400 ∧
    refreshToken (some (.signed "sec" (some "u1") 50)) "sec" 100 =
      ⟨403, "Refresh token has expired", none⟩ ∧
    (refreshToken (some (.signed "other" (some "u1") 200)) "sec" 100).status = 403 ∧
    (refreshToken (some (.malformed "xx")) "sec" 100).status = 403 ∧
    (refreshToken (some (.signed "sec" none 200)) "sec" 100).status = 403 ∧
    refreshToken (some (.signed "sec" (some "u1") 200)) "sec" 100 =
      ⟨200, "Token refreshed successfully",
        some (Token.signed "sec" (some "u1") 3700)⟩ :=
  ⟨(c3_refresh_token_contract "sec" 100).1,
   (c3_refresh_token_contract "sec" 100).2.1 (some "u1") 50 (by decide),
   (c3_refresh_token_contract "sec" 100).2.2.1 "other" (some "u1") 200 (by decide),
   (c3_refresh_token_contract "sec" 100).2.2.2.1 "xx",
   (c3_refresh_token_contract "sec" 100).2.2.2.2.1 200 (by decide),
   (c3_refresh_token_contract "sec" 100).2.2.2.2.2 "u1" 200 (by decide) (by decide)⟩

/-- **C7**: the login handler answers 404 for an unknown email and 401
for a wrong password as claimed, but on matching credentials its 200
body carries only the message and the token — the `role` property the
claim (and the repository's own test) expects is absent. -/
theorem c7_login_response_lacks_role :
    (loginUser wDb "nobody@x.com" "pw" "sec" 0).status = 404 ∧
    (loginUser wDb "a@x.com" "wrong" "sec" 0).status = 401 ∧
    (loginUser wDb "a@x.com" "pw" "sec" 0).status = 200 ∧
    (loginUser wDb "a@x.com" "pw" "sec" 0).token =
      some (Token.signed "sec" (some "u1") 3600) ∧
    (loginUser wDb "a@x.com" "pw" "sec" 0).role = none := by decide

/-- The empty initial state. -/
def emptyDb : Db := ⟨[], [], [], []⟩

/-- **C6** counterexample: registering a second user with an existing
email does create no second record, but the response status is 500 (the
duplicate-key error falls through to the generic global error handler),
not 400. -/
theorem c6_duplicate_email_counterexample :
    (registerUser emptyDb "id1" "alice" "a@x.com" "pw" "").status = 201 ∧
    (registerUser (registerUser emptyDb "id1" "alice" "a@x.com" "pw" "").db
        "id2" "bob" "a@x.com" "pw2" "").status = 500 ∧
    (registerUser (registerUser emptyDb "id1" "alice" "a@x.com" "pw" "").db
        "id2" "bob" "a@x.com" "pw2" "").status ≠ 400 ∧
    (registerUser (registerUser emptyDb "id1" "alice" "a@x.com" "pw" "").db
        "id2" "bob" "a@x.com" "pw2" "").db.users.length = 1 := by decide

/-- **C6 amended**: registering with a fresh, non-empty username and
email succeeds with 201 and appends exactly one record; registering when
some stored user already has the same email (or the same username, which
is also uniquely indexed) fails with the generic 500 of the global error
handler — not 400 — and leaves the state unchanged, so no second record
is created. -/
theorem c6_register_email_conflict (db : Db) (freshId un e pw ph : String) :
    (un ≠ "" → e ≠ "" →
      db.users.any (fun u => u.email == e || u.username == un) = false →
      (registerUser db freshId un e pw ph).status = 201 ∧
      (registerUser db freshId un e pw ph).db.users.length =
        db.users.length + 1) ∧
    (db.users.any (fun u => u.email == e || u.username == un) = true →
      registerUser db freshId un e pw ph = ⟨500, db⟩) := by
  constructor
  · intro hun he hfresh
    have key : registerUser db freshId un e pw ph = ⟨201, { db with
        users := db.users ++ [⟨freshId, un, e, bcryptHash pw, none,
          if ph == "" then none else some ph, none, "user", []⟩] }⟩ := by
      simp [registerUser, userCreate, beq_eq_false_iff_ne.mpr hun,
        beq_eq_false_iff_ne.mpr he, hfresh]
    rw [key]
    exact ⟨rfl, by simp⟩
  · intro hdup
    simp only [registerUser, userCreate]
    by_cases h1 : (un == "" || e == "") = true
    · rw [if_pos h1]
    · rw [if_neg h1, if_pos hdup]

/-- Witness for the amended C6: a fresh registration succeeds, a
registration against `wDb`'s existing email answers 500 and changes
nothing. -/
theorem c6_register_email_conflict_witness :
    ((registerUser emptyDb "id1" "alice" "a@x.com" "pw" "").status = 201 ∧
      (registerUser emptyDb "id1" "alice" "a@x.com" "pw" "").db.users.length =
        emptyDb.users.length + 1) ∧
    registerUser wDb "id9" "carol" "a@x.com" "pw" "" = ⟨500, wDb⟩ :=
  ⟨(c6_register_email_conflict emptyDb "id1" "alice" "a@x.com" "pw" "").1
      (by decide) (by decide) (by decide),
   (c6_register_email_conflict wDb "id9" "carol" "a@x.com" "pw" "").2
      (by decide)⟩

/-- A Gemini reply holding two numbers. -/
def c8Reply : String := "A fair price is between 10 and 20 dollars."

/-- A well-formed upstream response around `c8Reply`. -/
def c8Resp : GeminiResponse := ⟨[⟨some ⟨[⟨some c8Reply⟩]⟩⟩]⟩

/-- A well-formed upstream response whose reply holds no digits. -/
def c8RespNoDigit : GeminiResponse := ⟨[⟨some ⟨[⟨some "I cannot help."⟩]⟩⟩]⟩

/-- **C8** counterexample: the handler strips every character that is not
a digit or a dot and parses the concatenation, so on a reply holding the
two numbers 10 and 20 it reports 1020 — not the first numeric substring
10 that the claim describes. -/
theorem c8_first_numeric_counterexample :
    (generateSuggestedPrice "Chair" "Wooden chair" "Furniture" (some "key")
      c8Resp).status = 200 ∧
    (generateSuggestedPrice "Chair" "Wooden chair" "Furniture" (some "key")
      c8Resp).message = c8Reply ∧
    firstNumericSubstring c8Reply = some 10 ∧
    (generateSuggestedPrice "Chair" "Wooden chair" "Furniture" (some "key")
      c8Resp).suggestedPrice = some 1020 ∧
    (generateSuggestedPrice "Chair" "Wooden chair" "Furniture" (some "key")
      c8Resp).suggestedPrice ≠ firstNumericSubstring c8Reply := by
  have hmain : generateSuggestedPrice "Chair" "Wooden chair" "Furniture"
      (some "key") c8Resp = ⟨200, c8Reply, extractPrice c8Reply, true⟩ := rfl
  have hstrip : stripNonNumeric c8Reply = "1020." := by decide
  have hextract : extractPrice c8Reply = some 1020 := by
    unfold extractPrice
    rw [hstrip]
    unfold parseFloatQ
    rw [(by decide : (digitsPrefix ("1020.").data).1 = ['1', '0', '2', '0'])]
    rw [(by decide : dotFracDigits (digitsPrefix ("1020.").data).2 = [])]
    rw [if_neg (by decide)]
    rw [(by decide : natOfDigits ['1', '0', '2', '0'] = 1020)]
    rw [(by decide : natOfDigits ([] : List Char) = 0)]
    norm_num
  have hgo : firstNumericSubstring c8Reply = parseFloatQ "10 and 20 dollars." :=
    rfl
  have hfirst : firstNumericSubstring c8Reply = some 10 := by
    rw [hgo]
    unfold parseFloatQ
    rw [(by decide : (digitsPrefix ("10 and 20 dollars.").data).1 = ['1', '0'])]
    rw [(by decide : dotFracDigits (digitsPrefix ("10 and 20 dollars.").data).2 = [])]
    rw [if_neg (by decide)]
    rw [(by decide : natOfDigits ['1', '0'] = 10)]
    rw [(by decide : natOfDigits ([] : List Char) = 0)]
    norm_num
  refine ⟨by rw [hmain], by rw [hmain], hfirst, ?_, ?_⟩
  · rw [hmain]
    exact hextract
  · rw [hmain]
    show extractPrice c8Reply ≠ firstNumericSubstring c8Reply
    rw [hextract, hfirst]
    norm_num

/-- **C8 amended**: a missing title, description or category fails with
400 before the upstream is contacted; otherwise the suggested price is
`parseFloat` of the reply with every character other than decimal digits
and dots removed (reported as null when nothing parses — in particular
whenever the reply holds no digit), while the full text message is
returned. -/
theorem c8_price_extraction (title description category key : String)
    (resp : GeminiResponse) :
    ((title = "" ∨ description = "" ∨ category = "") →
      generateSuggestedPrice title description category (some key) resp =
        ⟨400, "Missing required fields", none, false⟩) ∧
    (title ≠ "" → description ≠ "" → category ≠ "" → key ≠ "" →
      ∀ (t : String) (parts : List GeminiPart) (rest : List GeminiCandidate),
        t ≠ "" →
        resp.candidates = ⟨some ⟨⟨some t⟩ :: parts⟩⟩ :: rest →
        (generateSuggestedPrice title description category (some key) resp).status
            = 200 ∧
        (generateSuggestedPrice title description category (some key) resp).message
            = t ∧
        (generateSuggestedPrice title description category (some key)
            resp).suggestedPrice = extractPrice t ∧
        ((∀ c ∈ t.data, c.isDigit = false) →
          (generateSuggestedPrice title description category (some key)
            resp).suggestedPrice = none)) := by
  constructor
  · rintro (h | h | h) <;> subst h <;> simp [generateSuggestedPrice]
  · intro ht hd hc hk t parts rest htne hcand
    have hmain : generateSuggestedPrice title description category (some key) resp
        = ⟨200, t, extractPrice t, true⟩ := by
      simp [generateSuggestedPrice, hcand, beq_eq_false_iff_ne.mpr ht,
        beq_eq_false_iff_ne.mpr hd, beq_eq_false_iff_ne.mpr hc,
        beq_eq_false_iff_ne.mpr hk, beq_eq_false_iff_ne.mpr htne]
    refine ⟨by rw [hmain], by rw [hmain], by rw [hmain], fun hnd => ?_⟩
    rw [hmain]
    show extractPrice t = none
    have hstrip : ∀ c ∈ (stripNonNumeric t).data, c.isDigit = false := by
      intro c hcmem
      have hmem : c ∈ t.data.filter (fun c => c.isDigit || c == '.') := hcmem
      exact hnd c (List.mem_filter.mp hmem).1
    exact parseFloatQ_none_of_no_digit hstrip

/-- Witness for the amended C8: a missing title fails with 400 without
contacting the upstream; a digit-free reply yields a null price. -/
theorem c8_price_extraction_witness :
    generateSuggestedPrice "" "d" "c" (some "k") c8Resp =
      ⟨400, "Missing required fields", none, false⟩ ∧
    (generateSuggestedPrice "T" "D" "C" (some "k")
      c8RespNoDigit).suggestedPrice = none :=
  ⟨(c8_price_extraction "" "d" "c" "k" c8Resp).1 (Or.inl rfl),
   ((c8_price_extraction "T" "D" "C" "k" c8RespNoDigit).2 (by decide)
      (by decide) (by decide) (by decide) "I cannot help." [] [] (by decide)
      (by decide)).2.2.2 (by decide)⟩

end Backend
